import Mathlib

/-
Verification development for kdebug.py, a Kubernetes debug-container
utility.  The Python source is shallowly embedded: pure fragments become
Lean functions, the kubectl-facing calls become explicit environment
parameters (functions from a command descriptor to the observed output),
and the polling loop becomes a fuel-indexed recursion where one unit of
fuel is one loop iteration (each iteration sleeps 2 seconds, so the
modelled elapsed time at the start of iteration i is 2*i seconds).
-/

namespace Kdebug

/-! ## Controller aliases and pod matching (kdebug.py lines 71-78, 146-208) -/

/-- CONTROLLER_ALIASES dict from kdebug.py lines 71-78, as an association
list in source order. -/
def CONTROLLER_ALIASES : List (String × String) :=
  [("deployment", "Deployment"), ("deploy", "Deployment"),
   ("statefulset", "StatefulSet"), ("sts", "StatefulSet"),
   ("daemonset", "DaemonSet"), ("ds", "DaemonSet")]

/-- One entry of a pod's metadata.ownerReferences (only the fields the
source reads: kind and name). -/
structure OwnerRef where
  kind : String
  name : String
deriving DecidableEq

/-- A pod item as parsed from the kubectl pod list: metadata.name and
metadata.ownerReferences. -/
structure PodItem where
  name : String
  ownerReferences : List OwnerRef
deriving DecidableEq

/-- The dict returned by pod selection in the source: keys name and
namespace. -/
structure Pod where
  name : String
  «namespace» : String
deriving DecidableEq

/-- Direct ownership check, kdebug.py lines 186-194: some owner reference
has the given kind and name exactly. -/
def pod_matches_direct (controller_kind controller_name : String)
    (refs : List OwnerRef) : Bool :=
  refs.any (fun r => r.kind == controller_kind && r.name == controller_name)

/-- ReplicaSet-name heuristic for Deployments, kdebug.py lines 197-206:
some owner reference is a ReplicaSet whose name starts with the controller
name followed by a dash. -/
def pod_matches_replicaset (controller_name : String)
    (refs : List OwnerRef) : Bool :=
  refs.any (fun r => r.kind == "ReplicaSet"
    && r.name.startsWith (controller_name ++ "-"))

/-- Python str.lower over the code points (which agrees with the source
for the ASCII controller-type flags the CLI accepts). -/
def str_lower (s : String) : String :=
  String.mk (s.toList.map Char.toLower)

/-- get_pods_by_controller, kdebug.py lines 146-208, applied to the parsed
pod items of the namespace.  The alias lookup models
CONTROLLER_ALIASES.get(controller_type.lower()); an unknown alias yields
the empty list (source line 152-158).  A pod is appended when a direct
owner reference matches, or, for Deployments only, when a ReplicaSet owner
reference carries the name prefix (each pod is appended at most once,
mirroring the pod_matched flag). -/
def get_pods_by_controller (controller_type controller_name ns : String)
    (items : List PodItem) : List Pod :=
  match (CONTROLLER_ALIASES.find?
      (fun p => p.1 == str_lower controller_type)).map Prod.snd with
  | none => []
  | some controller_kind =>
    (items.filter (fun pod =>
      pod_matches_direct controller_kind controller_name pod.ownerReferences
      || (controller_kind == "Deployment"
          && pod_matches_replicaset controller_name pod.ownerReferences))).map
      (fun pod => Pod.mk pod.name ns)

/-- Spec-side matching rule for StatefulSet/DaemonSet (spec section 4.1):
an owner reference whose kind and name match exactly.  Written from the
spec's words, to be compared with the code's behaviour. -/
def spec_matches_direct (controller_kind controller_name : String)
    (pod : PodItem) : Bool :=
  pod.ownerReferences.any
    (fun r => r.kind == controller_kind && r.name == controller_name)

/-- Spec-side matching rule for Deployment as literally stated by the
claim (spec section 4.1): an owner reference of kind ReplicaSet whose name
starts with the controller name followed by a dash, and nothing else.
Written from the spec's words, to be compared with the code's behaviour. -/
def spec_matches_deployment (controller_name : String)
    (pod : PodItem) : Bool :=
  pod.ownerReferences.any (fun r => r.kind == "ReplicaSet"
    && r.name.startsWith (controller_name ++ "-"))

/-- Amended spec rule for Deployment, matching the code: a direct
Deployment owner reference with the exact name also matches, in addition
to the ReplicaSet prefix rule. -/
def spec_matches_deployment_amended (controller_name : String)
    (pod : PodItem) : Bool :=
  spec_matches_direct "Deployment" controller_name pod
    || spec_matches_deployment controller_name pod

/-! ## Namespace resolution and pod selection (kdebug.py lines 113-117, 211-245) -/

/-- Python str.strip as the source applies it to command output: drop
leading and trailing whitespace characters. -/
def py_strip (s : String) : String :=
  String.mk
    (((s.toList.dropWhile Char.isWhitespace).reverse.dropWhile
      Char.isWhitespace).reverse)

/-- get_current_namespace, kdebug.py lines 113-117.  The argument is the
raw stdout of the kubectl config view command; run_command strips it, and
an empty (falsy) result yields the literal default. -/
def get_current_namespace (config_output : String) : String :=
  let output := py_strip config_output
  if output == "" then "default" else output

/-- Python truthiness for optional string arguments: None and the empty
string are both falsy. -/
def truthy : Option String → Option String
  | none => none
  | some s => if s == "" then none else some s

/-- The argparse fields select_pod reads (kdebug.py lines 211-245). -/
structure Args where
  pod : Option String
  controller : Option String
  controller_name : Option String
  «namespace» : Option String

/-- get_pod_by_name, kdebug.py lines 120-143.  The lookup parameter models
the kubectl get pod fetch plus JSON parse: it returns the parsed
metadata.name, or none when the pod is missing or the payload fails to
parse.  On success the source returns a dict carrying the requested
namespace. -/
def get_pod_by_name (lookup_pod : String → String → Option String)
    (pod_name ns : String) : Option Pod :=
  match lookup_pod pod_name ns with
  | none => none
  | some nm => some (Pod.mk nm ns)

/-- select_pod, kdebug.py lines 211-245.  The namespace falls back to the
current-context namespace when the argument is absent or empty (Python
or).  Direct pod mode delegates to get_pod_by_name; controller mode
requires a controller name, lists the namespace's pods and takes the first
match; otherwise no pod is selected. -/
def select_pod (args : Args) (config_output : String)
    (lookup_pod : String → String → Option String)
    (list_pods : String → List PodItem) : Option Pod :=
  let ns :=
    match truthy args.«namespace» with
    | some s => s
    | none => get_current_namespace config_output
  match truthy args.pod with
  | some p => get_pod_by_name lookup_pod p ns
  | none =>
    match truthy args.controller with
    | some ctype =>
      match truthy args.controller_name with
      | none => none
      | some cname =>
        match get_pods_by_controller ctype cname ns (list_pods ns) with
        | [] => none
        | p :: _ => some p
    | none => none

/-! ## New-container identification (kdebug.py lines 397-469) -/

/-- The list comprehension at kdebug.py lines 451-453: names present in
the post-creation ephemeral list but not in the pre-creation one, in
post-list order. -/
def new_container_names (new_containers existing_containers : List String) :
    List String :=
  new_containers.filter (fun name => !existing_containers.contains name)

/-- launch_debug_container, kdebug.py lines 397-469, restricted to the
identification-and-wait tail (lines 447-469): given the pre-creation
snapshot and the re-fetched post-creation list, diff them; with no new
name the function errors out (None); otherwise it proceeds with element 0
of the diff and returns it when wait_for_container_running succeeds, None
when it fails. -/
def launch_debug_container (existing_containers new_containers : List String)
    (wait_running : String → Bool) : Option String :=
  match new_container_names new_containers existing_containers with
  | [] => none
  | debug_container :: _ =>
    if wait_running debug_container then some debug_container else none

/-! ## The readiness poll loop (kdebug.py lines 295-394) -/

/-- One ephemeral container status' state field, kdebug.py lines 331-381:
running, waiting with a reason, terminated with a reason and exit code, or
a state dict with none of those keys. -/
inductive ContState where
  | running
  | waiting (reason : String)
  | terminated (reason : String) (exitCode : Int)
  | noState
deriving DecidableEq

/-- The outcome of one poll of the pod: empty kubectl output, a payload
that fails JSON parsing, or the parsed list of (name, state) ephemeral
container statuses. -/
inductive TickResult where
  | noOutput
  | malformed
  | statuses (l : List (String × ContState))
deriving DecidableEq

/-- failure_states, kdebug.py lines 303-310: waiting reasons that fail the
wait immediately. -/
def failure_states : List String :=
  ["ImagePullBackOff", "ErrImagePull", "CrashLoopBackOff",
   "CreateContainerError", "InvalidImageName", "CreateContainerConfigError"]

/-- The inner for-loop over ephemeralContainerStatuses, kdebug.py
lines 329-381: scan the status entries; on the watched name, running
decides success, waiting with a terminal reason or terminated decides
failure, and the transient cases update last_reason and keep scanning.
Returns the decision (none = keep polling) and the updated last_reason. -/
def processTick (container_name : String) :
    List (String × ContState) → Option String → Option Bool × Option String
  | [], last => (none, last)
  | (n, st) :: rest, last =>
    if n == container_name then
      match st with
      | ContState.running => (some true, last)
      | ContState.waiting reason =>
        if failure_states.contains reason then (some false, last)
        else processTick container_name rest (some reason)
      | ContState.terminated _ _ => (some false, last)
      | ContState.noState => processTick container_name rest (some "NoState")
    else processTick container_name rest last

/-- The decision a single poll result produces, independent of the
last_reason bookkeeping: empty and malformed payloads never decide. -/
def tickDecision (container_name : String) : TickResult → Option Bool
  | TickResult.noOutput => none
  | TickResult.malformed => none
  | TickResult.statuses l => (processTick container_name l none).1

/-- Enriched result of wait_for_container_running: the source returns a
bool, and the model additionally records at which iteration the loop
returned (success/failed) or how many iterations ran before the timeout
check failed, plus the final last_reason (printed at timeout). -/
inductive WaitOutcome where
  | success (tick : Nat)
  | failed (tick : Nat)
  | timedOut (ticks : Nat) (last_reason : Option String)
deriving DecidableEq

/-- The while loop of wait_for_container_running, kdebug.py lines 315-394.
Iteration i starts with modelled elapsed time 2*i (each prior iteration
slept 2 seconds); the loop runs while 2*i < timeout.  Fuel bounds the
recursion; the top-level entry supplies fuel = timeout, which the loop
condition can never exhaust (the invariant i + fuel = timeout makes the
fuel-zero case coincide with the timeout check failing). -/
def waitAux (env : Nat → TickResult) (container_name : String)
    (timeout : Nat) : Nat → Nat → Option String → WaitOutcome
  | 0, i, last => WaitOutcome.timedOut i last
  | fuel + 1, i, last =>
    if 2 * i < timeout then
      match env i with
      | TickResult.noOutput =>
        waitAux env container_name timeout fuel (i + 1) last
      | TickResult.malformed =>
        waitAux env container_name timeout fuel (i + 1) last
      | TickResult.statuses l =>
        match processTick container_name l last with
        | (some true, _) => WaitOutcome.success i
        | (some false, _) => WaitOutcome.failed i
        | (none, last2) =>
          waitAux env container_name timeout fuel (i + 1) last2
    else WaitOutcome.timedOut i last

/-- wait_for_container_running, kdebug.py lines 295-394: run the poll loop
from iteration 0 with last_reason unset. -/
def wait_for_container_running (env : Nat → TickResult)
    (container_name : String) (timeout : Nat) : WaitOutcome :=
  waitAux env container_name timeout timeout 0 none

/-! ## run_command and the backup flow (kdebug.py lines 91-110, 529-654) -/

/-- The kubectl invocations create_backup and main issue, with the exact
fields the source interpolates into each command string. -/
inductive KubectlCmd where
  | exec_ls_d (pod ns container path : String)
  | exec_ls_parent (pod ns container parent : String)
  | exec_tar (pod ns container path : String)
  | cp_from (pod ns container remote_path local_path : String)
  | exec_rm (pod ns container path : String)
deriving DecidableEq

/-- The container a command execs into or copies from (the -c flag). -/
def KubectlCmd.container : KubectlCmd → String
  | KubectlCmd.exec_ls_d _ _ c _ => c
  | KubectlCmd.exec_ls_parent _ _ c _ => c
  | KubectlCmd.exec_tar _ _ c _ => c
  | KubectlCmd.cp_from _ _ c _ _ => c
  | KubectlCmd.exec_rm _ _ c _ => c

/-- Whether a command is the kubectl cp transfer step. -/
def KubectlCmd.is_cp : KubectlCmd → Bool
  | KubectlCmd.cp_from _ _ _ _ _ => true
  | _ => false

/-- What subprocess.run reports for one command: captured stdout and the
process return code. -/
structure CmdResult where
  stdout : String
  returncode : Int
deriving DecidableEq

/-- run_command, kdebug.py lines 91-110: with check the call raises on a
nonzero return code and the handler returns None; without check
subprocess.run never raises and the stripped stdout is returned
unconditionally. -/
def run_command (env : KubectlCmd → CmdResult) (cmd : KubectlCmd)
    (check : Bool) : Option String :=
  let r := env cmd
  if check && r.returncode != 0 then none else some (py_strip r.stdout)

/-- Index just past the last slash of the string (Python rfind plus one,
0 when no slash occurs). -/
def rfind_slash_succ : List Char → Nat
  | [] => 0
  | c :: rest =>
    let r := rfind_slash_succ rest
    if r > 0 then r + 1 else if c == '/' then 1 else 0

/-- os.path.dirname for POSIX paths as used at kdebug.py line 556: take
the prefix up to the last slash; when that prefix is nonempty and not all
slashes, strip its trailing slashes. -/
def dirname (p : String) : String :=
  let cs := p.toList
  let head := cs.take (rfind_slash_succ cs)
  if head.isEmpty || head.all (fun c => c == '/') then String.mk head
  else String.mk ((head.reverse.dropWhile (fun c => c == '/')).reverse)

/-- Observable outcome of one create_backup call: the returned bool, the
kubectl commands issued in order, and whether the parent-directory listing
was printed on the path-not-found branch. -/
structure BackupRun where
  success : Bool
  trace : List KubectlCmd
  parent_shown : Bool
deriving DecidableEq

/-- create_backup, kdebug.py lines 529-654.  All run_command calls pass
check=False.  The presence check fails when the (stripped) ls output is
falsy or blank; that branch probes the parent directory when dirname is
truthy and not the root, prints its contents when the probe output is
truthy, and returns False without issuing a copy.  Otherwise the
compressed flow issues tar, cp and rm in order (each None-check mirrors
the source's dead guards) and the uncompressed flow issues cp directly. -/
def create_backup (env : KubectlCmd → CmdResult)
    (pod_name ns container_name backup_path : String)
    (compress : Bool) (date_string : String) : BackupRun :=
  let verify_cmd := KubectlCmd.exec_ls_d pod_name ns container_name backup_path
  let result := run_command env verify_cmd false
  let check_failed :=
    match result with
    | none => true
    | some s => py_strip s == ""
  if check_failed then
    let parent_dir := dirname backup_path
    if parent_dir != "" && parent_dir != "/" then
      let parent_cmd :=
        KubectlCmd.exec_ls_parent pod_name ns container_name parent_dir
      let parent_result := run_command env parent_cmd false
      let shown :=
        match parent_result with
        | none => false
        | some s => s != ""
      BackupRun.mk false [verify_cmd, parent_cmd] shown
    else
      BackupRun.mk false [verify_cmd] false
  else if compress then
    let tar_cmd := KubectlCmd.exec_tar pod_name ns container_name backup_path
    let r1 := run_command env tar_cmd false
    if r1 = none then
      BackupRun.mk false [verify_cmd, tar_cmd] false
    else
      let local_filename :=
        "./backups/" ++ ns ++ "/" ++ date_string ++ "_" ++ pod_name ++ ".tar.gz"
      let cp_cmd := KubectlCmd.cp_from pod_name ns container_name
        "/tmp/kdebug-backup.tar.gz" local_filename
      let r2 := run_command env cp_cmd false
      if r2 = none then
        BackupRun.mk false [verify_cmd, tar_cmd, cp_cmd] false
      else
        let cleanup_cmd := KubectlCmd.exec_rm pod_name ns container_name
          "/tmp/kdebug-backup.tar.gz"
        let _ := run_command env cleanup_cmd false
        BackupRun.mk true [verify_cmd, tar_cmd, cp_cmd, cleanup_cmd] false
  else
    let local_filename :=
      "./backups/" ++ ns ++ "/" ++ date_string ++ "_" ++ pod_name
    let cp_cmd := KubectlCmd.cp_from pod_name ns container_name
      backup_path local_filename
    let r := run_command env cp_cmd false
    if r = none then
      BackupRun.mk false [verify_cmd, cp_cmd] false
    else
      BackupRun.mk true [verify_cmd, cp_cmd] false

/-- The backup call site in main, kdebug.py lines 822-825: with both the
target container and the provisioned debug container in scope, main passes
the debug container to create_backup; the target container is not used on
this path. -/
def main_backup_call (env : KubectlCmd → CmdResult)
    (pod_name ns target_container debug_container backup_path : String)
    (compress : Bool) (date_string : String) : BackupRun :=
  let _ := target_container
  create_backup env pod_name ns debug_container backup_path compress date_string

/-! ## The try/except/finally tail of main (kdebug.py lines 819-842) -/

/-- Outcome of running a Python call: a returned value, a propagated
KeyboardInterrupt, or a propagated Exception. -/
inductive PyOutcome (α : Type) where
  | ok (a : α)
  | keyboard_interrupt
  | exn

/-- Observable effects of main's tail: which operation ran, each
cleanup_debug_container call, and the final sys.exit. -/
inductive MainEffect where
  | op_backup
  | op_interactive
  | cleanup (pod ns container : String)
  | sys_exit (code : Int)
deriving DecidableEq

/-- Whether an effect is a cleanup_debug_container call. -/
def MainEffect.is_cleanup : MainEffect → Bool
  | MainEffect.cleanup _ _ _ => true
  | _ => false

/-- main lines 819-842 after a debug container was provisioned, embedded
with Python's try/except/finally semantics: the try block runs backup or
interactive mode, the except arms map KeyboardInterrupt to exit code 130
and any other Exception to 1, and the finally clause runs
cleanup_debug_container on every path before sys.exit(exit_code). -/
def main_operation_phase (pod_name ns debug_container : String)
    (backup : Option String) (backup_result : PyOutcome Bool)
    (interactive_result : PyOutcome Int) : Int × List MainEffect :=
  let tried : MainEffect × PyOutcome Int :=
    match backup with
    | some _ =>
      (MainEffect.op_backup,
        match backup_result with
        | PyOutcome.ok success => PyOutcome.ok (if success then 0 else 1)
        | PyOutcome.keyboard_interrupt => PyOutcome.keyboard_interrupt
        | PyOutcome.exn => PyOutcome.exn)
    | none => (MainEffect.op_interactive, interactive_result)
  let exit_code : Int :=
    match tried.2 with
    | PyOutcome.ok code => code
    | PyOutcome.keyboard_interrupt => 130
    | PyOutcome.exn => 1
  (exit_code,
    [tried.1, MainEffect.cleanup pod_name ns debug_container,
     MainEffect.sys_exit exit_code])

/-! ## Concrete environments used by witnesses and counterexamples -/

/-- Environment whose every poll reports the watched container waiting with
reason ImagePullBackOff. -/
def envC3 : Nat → TickResult := fun _ =>
  TickResult.statuses [("debugger-aaa", ContState.waiting "ImagePullBackOff")]

/-- Environment whose every poll returns empty kubectl output. -/
def envC8 : Nat → TickResult := fun _ => TickResult.noOutput

/-- Environment whose every poll returns a malformed payload. -/
def envC9 : Nat → TickResult := fun _ => TickResult.malformed

/-- Command environment where the presence check succeeds and every other
command exits cleanly with empty output. -/
def envC5 : KubectlCmd → CmdResult := fun c =>
  match c with
  | KubectlCmd.exec_ls_d _ _ _ _ => CmdResult.mk "/var/configs" 0
  | _ => CmdResult.mk "" 0

/-- Command environment where the presence check prints nothing and the
parent-directory probe prints a listing. -/
def envC6 : KubectlCmd → CmdResult := fun c =>
  match c with
  | KubectlCmd.exec_ls_parent _ _ _ _ => CmdResult.mk "total 0" 0
  | _ => CmdResult.mk "" 0

/-- Command environment where the path exists, the archive succeeds, and
the transfer and remote-cleanup commands exit nonzero. -/
def envC7 : KubectlCmd → CmdResult := fun c =>
  match c with
  | KubectlCmd.exec_ls_d _ _ _ _ => CmdResult.mk "/var/configs" 0
  | KubectlCmd.cp_from _ _ _ _ _ => CmdResult.mk "" 1
  | KubectlCmd.exec_rm _ _ _ _ => CmdResult.mk "" 1
  | _ => CmdResult.mk "" 0

/-- Argument record selecting a pod directly with no namespace argument. -/
def argsC10 : Args := Args.mk (some "aggregator-0") none none none

/-! ## Helper lemmas about the poll loop -/

/-- The decision component of one status scan does not depend on the
incoming last_reason. -/
theorem processTick_fst_last (c : String) (l : List (String × ContState)) :
    ∀ last last', (processTick c l last).1 = (processTick c l last').1 := by
  induction l with
  | nil => intro last last'; rfl
  | cons hd tl ih =>
    intro last last'
    obtain ⟨n, st⟩ := hd
    by_cases hn : (n == c) = true
    · cases st with
      | running => simp [processTick, hn]
      | waiting reason =>
        by_cases hr : reason ∈ failure_states
        · simp [processTick, hn, hr]
        · simp [processTick, hn, hr]
      | terminated r e => simp [processTick, hn]
      | noState => simp [processTick, hn]
    · simp only [processTick, hn, Bool.false_eq_true, if_false]
      exact ih last last'

/-- When the first status entry for the watched container is waiting with a
terminal reason, the scan decides failure. -/
theorem processTick_find_waiting (c r : String)
    (hr : failure_states.contains r = true) :
    ∀ (l : List (String × ContState)) (last : Option String),
      l.find? (fun p => p.1 == c) = some (c, ContState.waiting r) →
      (processTick c l last).1 = some false := by
  intro l
  induction l with
  | nil => intro last h; simp [List.find?] at h
  | cons hd tl ih =>
    intro last hfind
    obtain ⟨n, st⟩ := hd
    by_cases hn : (n == c) = true
    · have hfind2 : some ((n, st) : String × ContState)
          = some ((c, ContState.waiting r) : String × ContState) := by
        rw [← hfind]; simp [List.find?, hn]
      simp only [Option.some.injEq, Prod.mk.injEq] at hfind2
      obtain ⟨rfl, rfl⟩ := hfind2
      have hmem : r ∈ failure_states := by simpa using hr
      simp [processTick, hn, hmem]
    · have hfind2 : List.find? (fun p => p.1 == c) tl
          = some (c, ContState.waiting r) := by
        rw [← hfind]; simp [List.find?, hn]
      simp only [processTick, hn, Bool.false_eq_true, if_false]
      exact ih last hfind2

/-- Unfolding the poll loop one step on an empty-output tick. -/
theorem waitAux_succ_noOutput (env : Nat → TickResult) (c : String)
    (timeout fuel i : Nat) (last : Option String)
    (h2 : 2 * i < timeout) (henv : env i = TickResult.noOutput) :
    waitAux env c timeout (fuel + 1) i last
      = waitAux env c timeout fuel (i + 1) last := by
  simp [waitAux, h2, henv]

/-- Unfolding the poll loop one step on a malformed-payload tick. -/
theorem waitAux_succ_malformed (env : Nat → TickResult) (c : String)
    (timeout fuel i : Nat) (last : Option String)
    (h2 : 2 * i < timeout) (henv : env i = TickResult.malformed) :
    waitAux env c timeout (fuel + 1) i last
      = waitAux env c timeout fuel (i + 1) last := by
  simp [waitAux, h2, henv]

/-- Unfolding the poll loop one step on a parsed-statuses tick, with the
status scan's result given explicitly. -/
theorem waitAux_succ_statuses (env : Nat → TickResult) (c : String)
    (timeout fuel i : Nat) (last last2 : Option String)
    (l : List (String × ContState)) (d : Option Bool)
    (h2 : 2 * i < timeout) (henv : env i = TickResult.statuses l)
    (hpt : processTick c l last = (d, last2)) :
    waitAux env c timeout (fuel + 1) i last
      = match d with
        | some true => WaitOutcome.success i
        | some false => WaitOutcome.failed i
        | none => waitAux env c timeout fuel (i + 1) last2 := by
  cases d with
  | none => simp [waitAux, h2, henv, hpt]
  | some b => cases b <;> simp [waitAux, h2, henv, hpt]

/-- Unfolding the poll loop when the elapsed time has reached the timeout. -/
theorem waitAux_succ_timeout (env : Nat → TickResult) (c : String)
    (timeout fuel i : Nat) (last : Option String)
    (h2 : ¬ 2 * i < timeout) :
    waitAux env c timeout (fuel + 1) i last = WaitOutcome.timedOut i last := by
  simp [waitAux, h2]

/-- One non-deciding iteration of the poll loop just advances to the next
tick with some updated last_reason. -/
theorem waitAux_step_nondecide (env : Nat → TickResult) (c : String)
    (timeout fuel i : Nat) (last : Option String)
    (h2 : 2 * i < timeout) (hd : tickDecision c (env i) = none) :
    ∃ last2, waitAux env c timeout (fuel + 1) i last
      = waitAux env c timeout fuel (i + 1) last2 := by
  cases henv : env i with
  | noOutput =>
    exact ⟨last, waitAux_succ_noOutput env c timeout fuel i last h2 henv⟩
  | malformed =>
    exact ⟨last, waitAux_succ_malformed env c timeout fuel i last h2 henv⟩
  | statuses l =>
    have hfst : (processTick c l last).1 = none := by
      rw [processTick_fst_last c l last none]
      simpa [tickDecision, henv] using hd
    rcases hpt : processTick c l last with ⟨d, last2⟩
    rw [hpt] at hfst
    simp only at hfst
    subst hfst
    exact ⟨last2,
      waitAux_succ_statuses env c timeout fuel i last last2 l none h2 henv hpt⟩

/-- Running the poll loop across t consecutive non-deciding ticks lands at
tick i + t with fuel reduced by t. -/
theorem waitAux_reach (env : Nat → TickResult) (c : String) (timeout : Nat) :
    ∀ (t i fuel : Nat) (last : Option String),
      (∀ j, j < t → tickDecision c (env (i + j)) = none) →
      (∀ j, j < t → 2 * (i + j) < timeout) →
      ∃ last2, waitAux env c timeout (fuel + t) i last
        = waitAux env c timeout fuel (i + t) last2 := by
  intro t
  induction t with
  | zero => intro i fuel last _ _; exact ⟨last, rfl⟩
  | succ t ih =>
    intro i fuel last hdec htime
    have h2 : 2 * i < timeout := by simpa using htime 0 t.succ_pos
    have hd : tickDecision c (env i) = none := by simpa using hdec 0 t.succ_pos
    obtain ⟨last1, h1⟩ :=
      waitAux_step_nondecide env c timeout (fuel + t) i last h2 hd
    obtain ⟨last2, hrec⟩ := ih (i + 1) fuel last1
      (fun j hj => by
        have h := hdec (j + 1) (Nat.succ_lt_succ hj)
        have e : i + (j + 1) = i + 1 + j := by omega
        rw [e] at h; exact h)
      (fun j hj => by
        have h := htime (j + 1) (Nat.succ_lt_succ hj)
        have e : i + (j + 1) = i + 1 + j := by omega
        rw [e] at h; exact h)
    refine ⟨last2, ?_⟩
    have heq : i + 1 + t = i + (t + 1) := by omega
    calc waitAux env c timeout (fuel + (t + 1)) i last
        = waitAux env c timeout (fuel + t) (i + 1) last1 := h1
      _ = waitAux env c timeout fuel (i + 1 + t) last2 := hrec
      _ = waitAux env c timeout fuel (i + (t + 1)) last2 := by rw [heq]

/-- If the poll loop reports a timeout at iteration count n, then the
modelled elapsed time 2*n has reached the timeout (provided the fuel budget
covers the timeout, as the top-level entry arranges). -/
theorem waitAux_timedOut_ge (env : Nat → TickResult) (c : String)
    (timeout : Nat) :
    ∀ (fuel i : Nat) (last : Option String) (n : Nat) (ls : Option String),
      timeout ≤ i + fuel →
      waitAux env c timeout fuel i last = WaitOutcome.timedOut n ls →
      timeout ≤ 2 * n := by
  intro fuel
  induction fuel with
  | zero =>
    intro i last n ls hle heq
    simp only [waitAux, WaitOutcome.timedOut.injEq] at heq
    omega
  | succ fuel ih =>
    intro i last n ls hle heq
    by_cases h2 : 2 * i < timeout
    · cases henv : env i with
      | noOutput =>
        rw [waitAux_succ_noOutput env c timeout fuel i last h2 henv] at heq
        exact ih (i + 1) last n ls (by omega) heq
      | malformed =>
        rw [waitAux_succ_malformed env c timeout fuel i last h2 henv] at heq
        exact ih (i + 1) last n ls (by omega) heq
      | statuses l =>
        rcases hpt : processTick c l last with ⟨d, last2⟩
        rw [waitAux_succ_statuses env c timeout fuel i last last2 l d
          h2 henv hpt] at heq
        cases d with
        | none => exact ih (i + 1) last2 n ls (by omega) heq
        | some b => cases b <;> simp at heq
    · rw [waitAux_succ_timeout env c timeout fuel i last h2] at heq
      simp only [WaitOutcome.timedOut.injEq] at heq
      omega

/-- When every tick inside the timeout window is non-deciding, the poll
loop can only end in a timeout. -/
theorem waitAux_nondecide_timedOut (env : Nat → TickResult) (c : String)
    (timeout : Nat)
    (h : ∀ j, 2 * j < timeout → tickDecision c (env j) = none) :
    ∀ (fuel i : Nat) (last : Option String),
      ∃ n ls, waitAux env c timeout fuel i last = WaitOutcome.timedOut n ls := by
  intro fuel
  induction fuel with
  | zero => intro i last; exact ⟨i, last, rfl⟩
  | succ fuel ih =>
    intro i last
    by_cases h2 : 2 * i < timeout
    · obtain ⟨last2, hstep⟩ :=
        waitAux_step_nondecide env c timeout fuel i last h2 (h i h2)
      obtain ⟨n, ls, hn⟩ := ih (i + 1) last2
      exact ⟨n, ls, hstep.trans hn⟩
    · exact ⟨i, last, waitAux_succ_timeout env c timeout fuel i last h2⟩

/-- A failure outcome at tick n can only come from a tick whose payload
parsed into a status list. -/
theorem waitAux_failed_statuses (env : Nat → TickResult) (c : String)
    (timeout : Nat) :
    ∀ (fuel i : Nat) (last : Option String) (n : Nat),
      waitAux env c timeout fuel i last = WaitOutcome.failed n →
      ∃ l, env n = TickResult.statuses l := by
  intro fuel
  induction fuel with
  | zero => intro i last n heq; simp [waitAux] at heq
  | succ fuel ih =>
    intro i last n heq
    by_cases h2 : 2 * i < timeout
    · cases henv : env i with
      | noOutput =>
        rw [waitAux_succ_noOutput env c timeout fuel i last h2 henv] at heq
        exact ih (i + 1) last n heq
      | malformed =>
        rw [waitAux_succ_malformed env c timeout fuel i last h2 henv] at heq
        exact ih (i + 1) last n heq
      | statuses l =>
        rcases hpt : processTick c l last with ⟨d, last2⟩
        rw [waitAux_succ_statuses env c timeout fuel i last last2 l d
          h2 henv hpt] at heq
        cases d with
        | none => exact ih (i + 1) last2 n heq
        | some b =>
          cases b with
          | false =>
            simp only [WaitOutcome.failed.injEq] at heq
            exact ⟨l, by rw [← heq]; exact henv⟩
          | true => simp at heq
    · rw [waitAux_succ_timeout env c timeout fuel i last h2] at heq
      simp at heq

/-- Every command issued by create_backup execs into (or copies via) the
container it was called with. -/
theorem create_backup_trace_container (env : KubectlCmd → CmdResult)
    (pod_name ns container_name backup_path : String) (compress : Bool)
    (date_string : String) :
    ((create_backup env pod_name ns container_name backup_path compress
        date_string).trace.all
      (fun c => c.container == container_name)) = true := by
  unfold create_backup
  rcases hv : run_command env
    (KubectlCmd.exec_ls_d pod_name ns container_name backup_path) false with _ | s
  all_goals simp only [hv]
  all_goals repeat' split
  all_goals simp [KubectlCmd.container]

/-- Every pod record returned by get_pods_by_controller carries the
namespace it was invoked with. -/
theorem get_pods_by_controller_namespace
    (controller_type controller_name ns : String) (items : List PodItem) :
    ∀ p ∈ get_pods_by_controller controller_type controller_name ns items,
      p.«namespace» = ns := by
  intro p hp
  unfold get_pods_by_controller at hp
  rcases halias : (CONTROLLER_ALIASES.find?
      (fun q => q.1 == str_lower controller_type)).map Prod.snd with _ | kind
  · rw [halias] at hp; simp at hp
  · rw [halias] at hp
    rw [List.mem_map] at hp
    obtain ⟨item, _, rfl⟩ := hp
    rfl

/-! ## Claim theorems -/

/-- Claim C1, counterexample: when the post-minus-pre difference contains
two names, launch_debug_container does not fail — it returns a session on
the first new name, contradicting the claim that a difference of more than
one name yields no session. -/
theorem c1_counterexample :
    launch_debug_container [] ["debugger-aaa", "debugger-bbb"] (fun _ => true)
      = some "debugger-aaa"
    ∧ launch_debug_container [] ["debugger-aaa", "debugger-bbb"] (fun _ => true)
      ≠ none := by
  refine ⟨rfl, ?_⟩
  intro h
  rw [show launch_debug_container [] ["debugger-aaa", "debugger-bbb"]
    (fun _ => true) = some "debugger-aaa" from rfl] at h
  exact Option.noConfusion h

/-- Claim C1 (amended): launch_debug_container fails when the set
difference post minus pre is empty; whenever the difference contains at
least one name — including the ambiguous case of several — it proceeds
with the first new name, returning it exactly when the readiness wait
succeeds, and any returned name occurs in the post list but not the pre
list. -/
theorem c1_first_new_name (existing_containers new_containers : List String)
    (wait_running : String → Bool) :
    (new_container_names new_containers existing_containers = [] →
      launch_debug_container existing_containers new_containers wait_running
        = none)
    ∧ (∀ d rest,
        new_container_names new_containers existing_containers = d :: rest →
        launch_debug_container existing_containers new_containers wait_running
          = if wait_running d then some d else none)
    ∧ (∀ d,
        launch_debug_container existing_containers new_containers wait_running
          = some d → d ∈ new_containers ∧ d ∉ existing_containers) := by
  refine ⟨?_, ?_, ?_⟩
  · intro h; simp [launch_debug_container, h]
  · intro d rest h; simp [launch_debug_container, h]
  · intro d h
    rcases hn : new_container_names new_containers existing_containers
      with _ | ⟨d0, rest⟩
    · have hl : launch_debug_container existing_containers new_containers
          wait_running = none := by
        simp [launch_debug_container, hn]
      rw [hl] at h
      exact Option.noConfusion h
    · by_cases hw : wait_running d0 = true
      · have hl : launch_debug_container existing_containers new_containers
            wait_running = some d0 := by
          simp [launch_debug_container, hn, hw]
        rw [hl] at h
        injection h with h
        subst h
        have hmem : d0 ∈ new_container_names new_containers
            existing_containers := by
          rw [hn]; exact List.mem_cons_self _ _
        unfold new_container_names at hmem
        rw [List.mem_filter] at hmem
        refine ⟨hmem.1, ?_⟩
        have hc := hmem.2
        simp only [Bool.not_eq_true'] at hc
        simpa using hc
      · have hl : launch_debug_container existing_containers new_containers
            wait_running = none := by
          simp [launch_debug_container, hn, hw]
        rw [hl] at h
        exact Option.noConfusion h

/-- Claim C1 witness: with one pre-existing name and two new names, the
amended theorem yields the first new name as the session. -/
theorem c1_first_new_name_witness :
    launch_debug_container ["keep"] ["keep", "debugger-aaa", "debugger-bbb"]
      (fun _ => true) = some "debugger-aaa" := by
  have h := (c1_first_new_name ["keep"] ["keep", "debugger-aaa", "debugger-bbb"]
    (fun _ => true)).2.1 "debugger-aaa" ["debugger-bbb"] rfl
  simpa using h

/-- Claim C2, counterexample: a pod whose only owner reference is a direct
Deployment reference with the controller's exact name is returned by
get_pods_by_controller, while the claim's stated Deployment rule (only
ReplicaSet references with the name prefix) selects nothing. -/
theorem c2_counterexample :
    get_pods_by_controller "deployment" "frontend" "default"
      [PodItem.mk "web-1" [OwnerRef.mk "Deployment" "frontend"]]
      = [Pod.mk "web-1" "default"]
    ∧ ([PodItem.mk "web-1" [OwnerRef.mk "Deployment" "frontend"]].filter
        (spec_matches_deployment "frontend")).map
        (fun i => Pod.mk i.name "default") = [] := by
  exact ⟨by decide, by decide⟩

/-- Claim C2 (amended): for every controller name and synthetic pod list,
get_pods_by_controller returns exactly the pods matching the ownership
rule and no others — direct kind-and-name owner match for StatefulSet and
DaemonSet; for Deployment, a direct Deployment owner match or a ReplicaSet
owner whose name starts with the controller name plus a dash — and the
short aliases resolve to the same results. -/
theorem c2_resolver_rule (controller_name ns : String) (items : List PodItem) :
    (get_pods_by_controller "statefulset" controller_name ns items
      = (items.filter (spec_matches_direct "StatefulSet" controller_name)).map
          (fun i => Pod.mk i.name ns))
    ∧ (get_pods_by_controller "daemonset" controller_name ns items
      = (items.filter (spec_matches_direct "DaemonSet" controller_name)).map
          (fun i => Pod.mk i.name ns))
    ∧ (get_pods_by_controller "deployment" controller_name ns items
      = (items.filter (spec_matches_deployment_amended controller_name)).map
          (fun i => Pod.mk i.name ns))
    ∧ get_pods_by_controller "sts" controller_name ns items
      = get_pods_by_controller "statefulset" controller_name ns items
    ∧ get_pods_by_controller "ds" controller_name ns items
      = get_pods_by_controller "daemonset" controller_name ns items
    ∧ get_pods_by_controller "deploy" controller_name ns items
      = get_pods_by_controller "deployment" controller_name ns items := by
  have hsts : (CONTROLLER_ALIASES.find?
      (fun p => p.1 == str_lower "sts")).map Prod.snd = some "StatefulSet" := by
    decide
  have hstatefulset : (CONTROLLER_ALIASES.find?
      (fun p => p.1 == str_lower "statefulset")).map Prod.snd
      = some "StatefulSet" := by decide
  have hds : (CONTROLLER_ALIASES.find?
      (fun p => p.1 == str_lower "ds")).map Prod.snd = some "DaemonSet" := by
    decide
  have hdaemonset : (CONTROLLER_ALIASES.find?
      (fun p => p.1 == str_lower "daemonset")).map Prod.snd
      = some "DaemonSet" := by decide
  have hdeploy : (CONTROLLER_ALIASES.find?
      (fun p => p.1 == str_lower "deploy")).map Prod.snd
      = some "Deployment" := by decide
  have hdeployment : (CONTROLLER_ALIASES.find?
      (fun p => p.1 == str_lower "deployment")).map Prod.snd
      = some "Deployment" := by decide
  refine ⟨?_, ?_, ?_,
    by unfold get_pods_by_controller; rw [hsts, hstatefulset],
    by unfold get_pods_by_controller; rw [hds, hdaemonset],
    by unfold get_pods_by_controller; rw [hdeploy, hdeployment]⟩
  · rw [show get_pods_by_controller "statefulset" controller_name ns items
        = (items.filter (fun pod =>
            pod_matches_direct "StatefulSet" controller_name pod.ownerReferences
            || ("StatefulSet" == "Deployment"
                && pod_matches_replicaset controller_name
                  pod.ownerReferences))).map
            (fun pod => Pod.mk pod.name ns) from by
      unfold get_pods_by_controller; rw [hstatefulset]]
    have hpred : (fun pod : PodItem =>
        pod_matches_direct "StatefulSet" controller_name pod.ownerReferences
        || ("StatefulSet" == "Deployment"
            && pod_matches_replicaset controller_name pod.ownerReferences))
        = spec_matches_direct "StatefulSet" controller_name := by
      funext pod
      rw [show ("StatefulSet" == "Deployment") = false from rfl]
      simp [pod_matches_direct, spec_matches_direct]
    rw [hpred]
  · rw [show get_pods_by_controller "daemonset" controller_name ns items
        = (items.filter (fun pod =>
            pod_matches_direct "DaemonSet" controller_name pod.ownerReferences
            || ("DaemonSet" == "Deployment"
                && pod_matches_replicaset controller_name
                  pod.ownerReferences))).map
            (fun pod => Pod.mk pod.name ns) from by
      unfold get_pods_by_controller; rw [hdaemonset]]
    have hpred : (fun pod : PodItem =>
        pod_matches_direct "DaemonSet" controller_name pod.ownerReferences
        || ("DaemonSet" == "Deployment"
            && pod_matches_replicaset controller_name pod.ownerReferences))
        = spec_matches_direct "DaemonSet" controller_name := by
      funext pod
      rw [show ("DaemonSet" == "Deployment") = false from rfl]
      simp [pod_matches_direct, spec_matches_direct]
    rw [hpred]
  · rw [show get_pods_by_controller "deployment" controller_name ns items
        = (items.filter (fun pod =>
            pod_matches_direct "Deployment" controller_name pod.ownerReferences
            || ("Deployment" == "Deployment"
                && pod_matches_replicaset controller_name
                  pod.ownerReferences))).map
            (fun pod => Pod.mk pod.name ns) from by
      unfold get_pods_by_controller; rw [hdeployment]]
    have hpred : (fun pod : PodItem =>
        pod_matches_direct "Deployment" controller_name pod.ownerReferences
        || ("Deployment" == "Deployment"
            && pod_matches_replicaset controller_name pod.ownerReferences))
        = spec_matches_deployment_amended controller_name := by
      funext pod
      rw [show ("Deployment" == "Deployment") = true from rfl]
      simp [pod_matches_direct, pod_matches_replicaset,
        spec_matches_deployment_amended, spec_matches_direct,
        spec_matches_deployment]
    rw [hpred]

/-- Claim C3: when every earlier tick was non-deciding and tick t's parsed
statuses report the watched container waiting with a reason in the fixed
failure set, the poll loop returns failure at tick t itself — for every
environment that agrees with the given one up to tick t, so no later tick
is ever consulted and no part of the remaining timeout is waited out. -/
theorem c3_terminal_waiting_fails_same_tick (env : Nat → TickResult)
    (container_name : String) (timeout t : Nat)
    (l : List (String × ContState)) (r : String)
    (h1 : 2 * t < timeout)
    (h2 : ∀ j, j < t → tickDecision container_name (env j) = none)
    (h3 : env t = TickResult.statuses l)
    (h4 : l.find? (fun p => p.1 == container_name)
        = some (container_name, ContState.waiting r))
    (h5 : failure_states.contains r = true) :
    wait_for_container_running env container_name timeout
      = WaitOutcome.failed t
    ∧ ∀ env2 : Nat → TickResult, (∀ j, j ≤ t → env2 j = env j) →
        wait_for_container_running env2 container_name timeout
          = WaitOutcome.failed t := by
  have main : ∀ env2 : Nat → TickResult, (∀ j, j ≤ t → env2 j = env j) →
      wait_for_container_running env2 container_name timeout
        = WaitOutcome.failed t := by
    intro env2 hagree
    have ht : t ≤ timeout := by omega
    have hrun : waitAux env2 container_name timeout (timeout - t + t) 0 none
        = WaitOutcome.failed t := by
      obtain ⟨last2, hreach⟩ :=
        waitAux_reach env2 container_name timeout t 0 (timeout - t) none
          (fun j hj => by
            have hz : (0 : Nat) + j = j := Nat.zero_add j
            rw [hz, hagree j (Nat.le_of_lt hj)]
            exact h2 j hj)
          (fun j hj => by
            have hz : (0 : Nat) + j = j := Nat.zero_add j
            rw [hz]; omega)
      rw [hreach]
      obtain ⟨fuel2, hfuel⟩ : ∃ f, timeout - t = f + 1 :=
        ⟨timeout - t - 1, by omega⟩
      rw [hfuel, Nat.zero_add]
      have henv2 : env2 t = TickResult.statuses l := by
        rw [hagree t (Nat.le_refl t)]; exact h3
      have hfst : (processTick container_name l last2).1 = some false :=
        processTick_find_waiting container_name r h5 l last2 h4
      rcases hpt : processTick container_name l last2 with ⟨d, last3⟩
      rw [hpt] at hfst
      simp only at hfst
      subst hfst
      rw [waitAux_succ_statuses env2 container_name timeout fuel2 t last2
        last3 l (some false) h1 henv2 hpt]
    have hcancel : timeout - t + t = timeout := by omega
    rw [hcancel] at hrun
    exact hrun
  exact ⟨main env (fun _ _ => rfl), main⟩

/-- Claim C3 witness: a first tick already reporting ImagePullBackOff makes
the loop fail at tick 0 of a 60 second timeout. -/
theorem c3_terminal_waiting_fails_same_tick_witness :
    wait_for_container_running envC3 "debugger-aaa" 60 = WaitOutcome.failed 0 :=
  (c3_terminal_waiting_fails_same_tick envC3 "debugger-aaa" 60 0
    [("debugger-aaa", ContState.waiting "ImagePullBackOff")] "ImagePullBackOff"
    (by omega) (fun j hj => absurd hj (Nat.not_lt_zero j)) rfl rfl rfl).1

/-- Claim C4: once a debug container has been provisioned, the
try/except/finally tail of main performs exactly one
cleanup_debug_container call, and that call precedes the process exit, on
every operation outcome — backup success or failure, interactive sessions
with any exit code, a raised exception, or a user interrupt. -/
theorem c4_cleanup_exactly_once (pod_name ns debug_container : String)
    (backup : Option String) (backup_result : PyOutcome Bool)
    (interactive_result : PyOutcome Int) :
    ((main_operation_phase pod_name ns debug_container backup backup_result
        interactive_result).2.countP MainEffect.is_cleanup) = 1
    ∧ ∃ pre code,
        (main_operation_phase pod_name ns debug_container backup backup_result
          interactive_result).2
        = pre ++ [MainEffect.cleanup pod_name ns debug_container,
                  MainEffect.sys_exit code] := by
  cases backup with
  | none =>
    exact ⟨by simp [main_operation_phase, MainEffect.is_cleanup,
      List.countP_cons, List.countP_nil], ⟨[MainEffect.op_interactive], _, rfl⟩⟩
  | some path =>
    exact ⟨by simp [main_operation_phase, MainEffect.is_cleanup,
      List.countP_cons, List.countP_nil], ⟨[MainEffect.op_backup], _, rfl⟩⟩

/-- Claim C5, counterexample: on main's backup path the presence check is
issued with the provisioned debug container as the -c argument, which
differs from the target container, contradicting the claim that the check
runs against the target container. -/
theorem c5_counterexample :
    (main_backup_call envC5 "aggregator-0" "kubecost" "aggregator"
        "debugger-abc" "/var/configs" false "2026-01-01_00-00-00").trace.head?
      = some (KubectlCmd.exec_ls_d "aggregator-0" "kubecost" "debugger-abc"
          "/var/configs")
    ∧ ("debugger-abc" : String) ≠ "aggregator" := by
  refine ⟨rfl, ?_⟩
  intro h
  simp at h

/-- Claim C5 (amended): every kubectl command issued on main's backup path
— the presence check and all subsequent archive, transfer, diagnostic and
remote-cleanup commands — execs into (or copies via) the debug container
of the session, not the target container. -/
theorem c5_backup_runs_in_debug_container (env : KubectlCmd → CmdResult)
    (pod_name ns target_container debug_container backup_path : String)
    (compress : Bool) (date_string : String) :
    ((main_backup_call env pod_name ns target_container debug_container
        backup_path compress date_string).trace.all
      (fun c => c.container == debug_container)) = true :=
  create_backup_trace_container env pod_name ns debug_container backup_path
    compress date_string

/-- Claim C6: when the presence check's stripped output is empty,
create_backup returns failure, never issues a kubectl cp transfer, and —
when the path's parent directory string is nonempty and not the root —
first probes the parent directory (its contents are displayed whenever the
probe prints anything) before failing. -/
theorem c6_path_not_found (env : KubectlCmd → CmdResult)
    (pod_name ns container_name backup_path : String) (compress : Bool)
    (date_string : String)
    (h : py_strip (env (KubectlCmd.exec_ls_d pod_name ns container_name
        backup_path)).stdout = "") :
    (create_backup env pod_name ns container_name backup_path compress
        date_string).success = false
    ∧ ((create_backup env pod_name ns container_name backup_path compress
        date_string).trace.all (fun c => ! c.is_cp)) = true
    ∧ (dirname backup_path ≠ "" → dirname backup_path ≠ "/" →
        (create_backup env pod_name ns container_name backup_path compress
          date_string).trace
          = [KubectlCmd.exec_ls_d pod_name ns container_name backup_path,
             KubectlCmd.exec_ls_parent pod_name ns container_name
               (dirname backup_path)]
        ∧ (py_strip (env (KubectlCmd.exec_ls_parent pod_name ns container_name
              (dirname backup_path))).stdout ≠ "" →
            (create_backup env pod_name ns container_name backup_path compress
              date_string).parent_shown = true)) := by
  have hemp : (py_strip "" == "") = true := rfl
  by_cases hp : dirname backup_path ≠ "" ∧ dirname backup_path ≠ "/"
  · have hres : create_backup env pod_name ns container_name backup_path
        compress date_string
        = BackupRun.mk false
            [KubectlCmd.exec_ls_d pod_name ns container_name backup_path,
             KubectlCmd.exec_ls_parent pod_name ns container_name
               (dirname backup_path)]
            (py_strip (env (KubectlCmd.exec_ls_parent pod_name ns
              container_name (dirname backup_path))).stdout != "") := by
      simp [create_backup, run_command, h, hemp, hp.1, hp.2]
    refine ⟨by rw [hres], by rw [hres]; rfl, ?_⟩
    intro _ _
    refine ⟨by rw [hres], ?_⟩
    intro hne
    rw [hres]
    simpa using hne
  · have hp2 : dirname backup_path = "" ∨ dirname backup_path = "/" := by
      by_contra hcon
      push_neg at hcon
      exact hp hcon
    have hres : create_backup env pod_name ns container_name backup_path
        compress date_string
        = BackupRun.mk false
            [KubectlCmd.exec_ls_d pod_name ns container_name backup_path]
            false := by
      rcases hp2 with hp2 | hp2 <;>
        simp [create_backup, run_command, h, hemp, hp2]
    refine ⟨by rw [hres], by rw [hres]; rfl, ?_⟩
    intro hd1 hd2
    exact absurd ⟨hd1, hd2⟩ hp

/-- Claim C6 witness: an empty presence check for /var/configs yields
failure, a trace of exactly the check and the parent probe of /var, and the
parent listing displayed. -/
theorem c6_path_not_found_witness :
    (create_backup envC6 "pod-0" "ns1" "dbg" "/var/configs" false
        "ts").success = false
    ∧ (create_backup envC6 "pod-0" "ns1" "dbg" "/var/configs" false
        "ts").trace
      = [KubectlCmd.exec_ls_d "pod-0" "ns1" "dbg" "/var/configs",
         KubectlCmd.exec_ls_parent "pod-0" "ns1" "dbg" "/var"]
    ∧ (create_backup envC6 "pod-0" "ns1" "dbg" "/var/configs" false
        "ts").parent_shown = true := by
  have h := c6_path_not_found envC6 "pod-0" "ns1" "dbg" "/var/configs" false
    "ts" rfl
  have h3 := h.2.2 (by decide) (by decide)
  exact ⟨h.1, h3.1, h3.2 (by decide)⟩

/-- Claim C7, code-bug evidence: with the path present, the compressed flow
issues archive, transfer and remote-cleanup in exactly that order, yet a
transfer whose kubectl cp exits with code 1 leaves the overall result a
success — the source's failure guards compare run_command's check=False
result against None, which that call never returns. -/
theorem c7_transfer_failure_not_detected :
    (create_backup envC7 "pod-0" "ns1" "dbg" "/var/configs" true
        "ts").success = true
    ∧ (create_backup envC7 "pod-0" "ns1" "dbg" "/var/configs" true
        "ts").trace
      = [KubectlCmd.exec_ls_d "pod-0" "ns1" "dbg" "/var/configs",
         KubectlCmd.exec_tar "pod-0" "ns1" "dbg" "/var/configs",
         KubectlCmd.cp_from "pod-0" "ns1" "dbg" "/tmp/kdebug-backup.tar.gz"
           "./backups/ns1/ts_pod-0.tar.gz",
         KubectlCmd.exec_rm "pod-0" "ns1" "dbg" "/tmp/kdebug-backup.tar.gz"]
    ∧ (envC7 (KubectlCmd.cp_from "pod-0" "ns1" "dbg"
        "/tmp/kdebug-backup.tar.gz"
        "./backups/ns1/ts_pod-0.tar.gz")).returncode ≠ 0 := by
  exact ⟨by decide, by decide, by decide⟩

/-- Claim C8: when no tick inside the timeout window decides (no running,
terminal waiting, or terminated state is observed), the poll loop ends in
the timed-out outcome, and the iteration count n at which it does satisfies
timeout ≤ 2*n — the modelled elapsed time has reached the timeout, so
TimedOut is never returned while the elapsed time is below it. -/
theorem c8_timeout_only_after_elapsed (env : Nat → TickResult)
    (container_name : String) (timeout : Nat)
    (h : ∀ j, 2 * j < timeout → tickDecision container_name (env j) = none) :
    ∃ n last, wait_for_container_running env container_name timeout
        = WaitOutcome.timedOut n last
      ∧ timeout ≤ 2 * n := by
  obtain ⟨n, ls, heq⟩ :=
    waitAux_nondecide_timedOut env container_name timeout h timeout 0 none
  exact ⟨n, ls, heq,
    waitAux_timedOut_ge env container_name timeout timeout 0 none n ls
      (by omega) heq⟩

/-- Claim C8 witness: with every poll returning empty output and a 4 second
timeout, the loop times out at an iteration count whose elapsed time has
reached 4 seconds. -/
theorem c8_timeout_only_after_elapsed_witness :
    ∃ n last, wait_for_container_running envC8 "dbg" 4
        = WaitOutcome.timedOut n last
      ∧ 4 ≤ 2 * n :=
  c8_timeout_only_after_elapsed envC8 "dbg" 4 (fun _ _ => rfl)

/-- Claim C9: a malformed status payload at a tick inside the timeout
window is a transient no-op — that iteration just advances to the next tick
with the loop state unchanged, the tick decides nothing, and the loop never
returns a failure at that tick. -/
theorem c9_malformed_tick_is_transient (env : Nat → TickResult)
    (container_name : String) (timeout i fuel : Nat) (last : Option String)
    (h1 : env i = TickResult.malformed) (h2 : 2 * i < timeout) :
    waitAux env container_name timeout (fuel + 1) i last
      = waitAux env container_name timeout fuel (i + 1) last
    ∧ tickDecision container_name (env i) = none
    ∧ wait_for_container_running env container_name timeout
      ≠ WaitOutcome.failed i := by
  refine ⟨waitAux_succ_malformed env container_name timeout fuel i last h2 h1,
    ?_, ?_⟩
  · rw [h1]; rfl
  · intro hcon
    obtain ⟨l, hl⟩ :=
      waitAux_failed_statuses env container_name timeout timeout 0 none i hcon
    rw [h1] at hl
    exact TickResult.noConfusion hl

/-- Claim C9 witness: with a malformed payload at tick 0 of a 60 second
timeout, the first iteration is a no-op step to tick 1 and the loop does
not fail at tick 0. -/
theorem c9_malformed_tick_is_transient_witness :
    waitAux envC9 "dbg" 60 30 0 none = waitAux envC9 "dbg" 60 29 1 none
    ∧ tickDecision "dbg" (envC9 0) = none
    ∧ wait_for_container_running envC9 "dbg" 60 ≠ WaitOutcome.failed 0 :=
  c9_malformed_tick_is_transient envC9 "dbg" 60 0 29 none rfl (by omega)

/-- Claim C10: with no namespace argument and an empty current-context
namespace query, the resolved namespace is the literal default — the
direct-pod lookup is issued against namespace default, and every pod record
select_pod returns carries namespace default, which main then uses for all
subsequent operations. -/
theorem c10_default_namespace (args : Args) (config_output : String)
    (lookup_pod : String → String → Option String)
    (list_pods : String → List PodItem)
    (h1 : args.«namespace» = none) (h2 : py_strip config_output = "") :
    get_current_namespace config_output = "default"
    ∧ (∀ p, truthy args.pod = some p →
        select_pod args config_output lookup_pod list_pods
          = get_pod_by_name lookup_pod p "default")
    ∧ (∀ pd, select_pod args config_output lookup_pod list_pods = some pd →
        pd.«namespace» = "default") := by
  have hns : get_current_namespace config_output = "default" := by
    simp [get_current_namespace, h2]
  have ht : truthy none = (none : Option String) := rfl
  refine ⟨hns, ?_, ?_⟩
  · intro p hp
    simp [select_pod, h1, ht, hp, hns]
  · intro pd hpd
    rcases hpod : truthy args.pod with _ | p
    · rcases hctl : truthy args.controller with _ | ctype
      · have h0 : select_pod args config_output lookup_pod list_pods
            = none := by
          simp [select_pod, h1, ht, hpod, hctl]
        rw [h0] at hpd
        exact Option.noConfusion hpd
      · rcases hcn : truthy args.controller_name with _ | cname
        · have h0 : select_pod args config_output lookup_pod list_pods
              = none := by
            simp [select_pod, h1, ht, hpod, hctl, hcn]
          rw [h0] at hpd
          exact Option.noConfusion hpd
        · rcases hlist : get_pods_by_controller ctype cname "default"
              (list_pods "default") with _ | ⟨q, rest⟩
          · have h0 : select_pod args config_output lookup_pod list_pods
                = none := by
              simp [select_pod, h1, ht, hpod, hctl, hcn, hns, hlist]
            rw [h0] at hpd
            exact Option.noConfusion hpd
          · have h0 : select_pod args config_output lookup_pod list_pods
                = some q := by
              simp [select_pod, h1, ht, hpod, hctl, hcn, hns, hlist]
            rw [h0] at hpd
            injection hpd with hq
            subst hq
            exact get_pods_by_controller_namespace ctype cname "default"
              (list_pods "default") q
              (by rw [hlist]; exact List.mem_cons_self _ _)
    · have h0 : select_pod args config_output lookup_pod list_pods
          = get_pod_by_name lookup_pod p "default" := by
        simp [select_pod, h1, ht, hpod, hns]
      rw [h0] at hpd
      rcases hlk : lookup_pod p "default" with _ | nm
      · have h3 : get_pod_by_name lookup_pod p "default" = none := by
          simp [get_pod_by_name, hlk]
        rw [h3] at hpd
        exact Option.noConfusion hpd
      · have h3 : get_pod_by_name lookup_pod p "default"
            = some (Pod.mk nm "default") := by
          simp [get_pod_by_name, hlk]
        rw [h3] at hpd
        injection hpd with hq
        rw [← hq]

/-- Claim C10 witness: with no namespace argument, an empty context query
resolves to default and the selected pod record carries namespace
default. -/
theorem c10_default_namespace_witness :
    get_current_namespace "" = "default"
    ∧ select_pod argsC10 "" (fun p _ => some p) (fun _ => [])
      = some (Pod.mk "aggregator-0" "default") := by
  have h := c10_default_namespace argsC10 "" (fun p _ => some p)
    (fun _ => []) rfl rfl
  refine ⟨h.1, ?_⟩
  rw [h.2.1 "aggregator-0" rfl]
  rfl

end Kdebug
